import Mathlib

/-!
Verification of the AI traffic-management pipeline: a shallow embedding of the
congestion estimator, the signal state machine and the websocket broadcast hub
found in `yolo_web_streamer.py`, `yolo_traffic_detector.py`, `working_yolo.py`,
`simple_yolo.py` and `yolo_video_display.py`, together with proofs and
refutations of the specified properties.

Vehicle counts are natural numbers; wall-clock durations and averages are
rationals (the Python code uses floats, whose values here are always exact
decimal fractions).
-/

namespace Traffic

/-- Congestion level labels, as the strings "low" / "medium" / "high". -/
inductive Congestion
  | low
  | medium
  | high
deriving DecidableEq, Repr

/-- Signal light labels, as the strings "green" / "yellow" / "red". -/
inductive Light
  | green
  | yellow
  | red
deriving DecidableEq, Repr

/-- Successor in the fixed cycle green → yellow → red → green. -/
def nextLight : Light → Light
  | .green => .yellow
  | .yellow => .red
  | .red => .green

/-- Green dwell times from `signal_timings["green"]` in `yolo_web_streamer.py`
(identical dict in `yolo_traffic_detector.py`). -/
def greenDuration : Congestion → ℚ
  | .low => 30
  | .medium => 20
  | .high => 15

/-- Yellow dwell time `signal_timings["yellow"] = 3`. -/
def yellowDuration : ℚ := 3

/-- Red dwell times from `signal_timings["red"]`. -/
def redDuration : Congestion → ℚ
  | .low => 15
  | .medium => 25
  | .high => 35

/-- Dwell-time lookup `signal_timings[state][congestion]`. -/
def dwell : Light → Congestion → ℚ
  | .green, c => greenDuration c
  | .yellow, _ => yellowDuration
  | .red, c => redDuration c

/-- History-window update from `update_traffic_signal` in
`yolo_web_streamer.py` (`history.append(count)`, then `pop(0)` when the length
exceeds 30); the same behaviour as `deque(maxlen=30)` in
`yolo_traffic_detector.py` and the append/pop in `working_yolo.py`. -/
def updateHistory (h : List ℕ) (c : ℕ) : List ℕ :=
  let h' := h ++ [c]
  if h'.length > 30 then h'.tail else h'

/-- Guarded average `sum(history)/len(history) if history else 0`. -/
def histAvg (h : List ℕ) : ℚ :=
  if h = [] then 0 else (h.sum : ℚ) / h.length

/-- Threshold classification applied to an average, from
`update_traffic_signal` in `yolo_web_streamer.py`:
`avg < 5 → low`, `elif avg < 15 → medium`, `else high`. -/
def classifyAvg (a : ℚ) : Congestion :=
  if a < 5 then .low else if a < 15 then .medium else .high

/-- Instantaneous-count classification `calculate_congestion_level` from
`yolo_traffic_detector.py` (the same inline chain appears in
`working_yolo.py` and `simple_yolo.py`): thresholds applied to the raw
per-frame vehicle count. -/
def calculate_congestion_level (n : ℕ) : Congestion :=
  if n < 5 then .low else if n < 15 then .medium else .high

/-- Estimator part of `YoloWebStreamer.update_traffic_signal`: append the
count, evict on overflow, take the guarded average of the resulting window,
classify that average.  Returns the new window and the congestion level. -/
def webEstimatorUpdate (h : List ℕ) (c : ℕ) : List ℕ × Congestion :=
  let h1 := h ++ [c]
  let h2 := if h1.length > 30 then h1.tail else h1
  let avg : ℚ := if h2 = [] then 0 else (h2.sum : ℚ) / h2.length
  let lvl := if avg < 5 then Congestion.low
             else if avg < 15 then Congestion.medium
             else Congestion.high
  (h2, lvl)

/-- Estimator step of `TrafficDetector.process_video`: the count is appended to
the `deque(maxlen=30)` window, but the congestion level is
`calculate_congestion_level(vehicle_count)` on the instantaneous count. -/
def detectorEstimatorUpdate (h : List ℕ) (c : ℕ) : List ℕ × Congestion :=
  (updateHistory h c, calculate_congestion_level c)

/-- Published `avg_vehicle_count` of `simple_yolo.py`:
`vehicle_count * 0.9` (its own comment calls it a simple average simulation). -/
def simpleAvg (c : ℕ) : ℚ := (c : ℚ) * (9 / 10)

/-- Controller state: the current light and the time accumulated in it
(`current_signal` and the elapsed time since `last_signal_time`, or the
accumulated `signal_timer` in the `+=` variants — the two bookkeeping styles
agree once expressed as elapsed time in the current state). -/
structure SignalState where
  signal : Light
  timer : ℚ
deriving DecidableEq, Repr

/-- Signal step of `YoloWebStreamer.update_traffic_signal`: add the new delta
to the elapsed time and compare strictly (`elapsed > duration`) against the
dwell time of the current light; on transition the elapsed time restarts at
zero (`last_signal_time = current_time; signal_timer = 0`), discarding any
overshoot beyond the dwell time. -/
def tick (s : SignalState) (dt : ℚ) (cong : Congestion) : SignalState :=
  let elapsed := s.timer + dt
  match s.signal with
  | .green => if elapsed > greenDuration cong then ⟨.yellow, 0⟩ else ⟨.green, elapsed⟩
  | .yellow => if elapsed > yellowDuration then ⟨.red, 0⟩ else ⟨.yellow, elapsed⟩
  | .red => if elapsed > redDuration cong then ⟨.green, 0⟩ else ⟨.red, elapsed⟩

/-- Signal step of `YoloVideoDisplay.update_traffic_signal`: identical to
`tick` except that the comparisons are non-strict (`elapsed >= duration`). -/
def displayTick (s : SignalState) (dt : ℚ) (cong : Congestion) : SignalState :=
  let elapsed := s.timer + dt
  match s.signal with
  | .green => if elapsed ≥ greenDuration cong then ⟨.yellow, 0⟩ else ⟨.green, elapsed⟩
  | .yellow => if elapsed ≥ yellowDuration then ⟨.red, 0⟩ else ⟨.yellow, elapsed⟩
  | .red => if elapsed ≥ redDuration cong then ⟨.green, 0⟩ else ⟨.red, elapsed⟩

/-- Signal step of `working_yolo.py` / `simple_yolo.py`: one strict-comparison
if/elif chain, where the single table `signal_timings = {"low": 30,
"medium": 20, "high": 15}` is used for BOTH the green and the red dwell time
(these variants have no separate red table). -/
def workingTick (s : SignalState) (dt : ℚ) (cong : Congestion) : SignalState :=
  let t := s.timer + dt
  if s.signal = .green ∧ t > greenDuration cong then ⟨.yellow, 0⟩
  else if s.signal = .yellow ∧ t > 3 then ⟨.red, 0⟩
  else if s.signal = .red ∧ t > greenDuration cong then ⟨.green, 0⟩
  else ⟨s.signal, t⟩

/-- Accumulated simulated time at which the first red→green transition occurs
when the listed deltas are fed to `tick` one per call under a constant
congestion level, starting from the given state; `none` when the run ends
before the cycle closes. -/
def cycleTimeAux (cong : Congestion) : SignalState → ℚ → List ℚ → Option ℚ
  | _, _, [] => none
  | s, total, dt :: rest =>
    let s' := tick s dt cong
    if s.signal = .red ∧ s'.signal = .green then some (total + dt)
    else cycleTimeAux cong s' (total + dt) rest

/-- Accumulated time for one full cycle green→yellow→red→green from a fresh
green state. -/
def cycleTime (cong : Congestion) (dts : List ℚ) : Option ℚ :=
  cycleTimeAux cong ⟨.green, 0⟩ 0 dts

/-- Behaviour of one websocket client when a message is sent to it: the send
succeeds, raises `websockets.exceptions.ConnectionClosed`, or raises some
other exception. -/
inductive SendOutcome
  | ok
  | closed
  | err
deriving DecidableEq, Repr

/-- A subscriber: an identity plus its send behaviour for this broadcast. -/
structure Client where
  id : ℕ
  outcome : SendOutcome
deriving DecidableEq, Repr

/-- Send loop of `YoloWebStreamer.broadcast_data`: every client of the current
set is tried; `ConnectionClosed` and every other exception are both caught and
the client is put into `disconnected_clients`.  Returns the list of clients
that received the message and the collected disconnected set. -/
def webBroadcastLoop : List Client → List Client × List Client
  | [] => ([], [])
  | c :: rest =>
    let (d, x) := webBroadcastLoop rest
    match c.outcome with
    | .ok => (c :: d, x)
    | .closed => (d, c :: x)
    | .err => (d, c :: x)

/-- `YoloWebStreamer.broadcast_data`: run the send loop, then remove the
disconnected clients from the set (`websocket_clients -= disconnected`).
Returns (clients that received the snapshot, remaining client set); the
function is total — no exception escapes it. -/
def webBroadcast (clients : List Client) : List Client × List Client :=
  let r := webBroadcastLoop clients
  (r.1, clients.filter (fun c => !r.2.contains c))

/-- Send loop of `TrafficDetector.broadcast_data`: only
`websockets.exceptions.ConnectionClosed` is caught; any other exception
escapes the `for` loop at once.  `.error (c, d)` reports the faulting client
`c` together with the clients `d` that had already received the message;
`.ok (d, x)` reports deliveries and the collected disconnected set. -/
def detectorBroadcastLoop : List Client → Except (Client × List Client) (List Client × List Client)
  | [] => .ok ([], [])
  | c :: rest =>
    match c.outcome with
    | .ok =>
      match detectorBroadcastLoop rest with
      | .ok (d, x) => .ok (c :: d, x)
      | .error (f, d) => .error (f, c :: d)
    | .closed =>
      match detectorBroadcastLoop rest with
      | .ok (d, x) => .ok (d, c :: x)
      | .error (f, d) => .error (f, d)
    | .err => .error (c, [])

/-- `TrafficDetector.broadcast_data`: when the loop raises, the exception
propagates out of the coroutine and the removal line
`websocket_clients -= disconnected` is never executed, so the set is left
unchanged; otherwise disconnected clients are removed. -/
def detectorBroadcast (clients : List Client) :
    Except (Client × List Client) (List Client × List Client) :=
  match detectorBroadcastLoop clients with
  | .error e => .error e
  | .ok r => .ok (r.1, clients.filter (fun c => !r.2.contains c))

/-- Frame counter of `YoloWebStreamer.generate_frames`: reading a frame
increments `frame_count` and publishes it as `frame_number`; a failed read
(end of the video) resets `frame_count = 0` and loops.  `true` stands for a
successful `cap.read()`, `false` for end-of-stream.  Returns the list of
published frame numbers. -/
def webFrameNumbers : ℕ → List Bool → List ℕ
  | _, [] => []
  | n, ok :: rest =>
    if ok then (n + 1) :: webFrameNumbers (n + 1) rest
    else webFrameNumbers 0 rest

/-- Published `frame_number` values of the web streamer from a fresh start. -/
def webPublishedSeq (frames : List Bool) : List ℕ :=
  webFrameNumbers 0 frames

/-- Frame counter of `working_yolo.py`: `frame_count` increments on every
successful read and is NOT reset when the video loops (the end-of-stream
branch only rewinds the capture). -/
def workingFrameNumbers : ℕ → List Bool → List ℕ
  | _, [] => []
  | n, ok :: rest =>
    if ok then (n + 1) :: workingFrameNumbers (n + 1) rest
    else workingFrameNumbers n rest

/-- Published `frame_count` values of `working_yolo.py` from a fresh start. -/
def workingPublishedSeq (frames : List Bool) : List ℕ :=
  workingFrameNumbers 0 frames

/-- Keys of the per-cycle data dict broadcast by
`TrafficDetector.process_video`. -/
def detectorDataKeys : List String :=
  ["timestamp", "vehicle_count", "avg_vehicle_count", "congestion_level",
   "traffic_signal", "signal_timer", "vehicles"]

/-- Keys of the per-cycle data dict broadcast by
`YoloWebStreamer.generate_frames`. -/
def webDataKeys : List String :=
  ["timestamp", "vehicle_count", "avg_vehicle_count", "congestion_level",
   "traffic_signal", "signal_timer", "fps", "frame_number"]

/-- Keys of the per-cycle data dict broadcast by `working_yolo.py`. -/
def workingDataKeys : List String :=
  ["timestamp", "vehicle_count", "avg_vehicle_count", "congestion_level",
   "traffic_signal", "signal_timer", "frame_count"]

/-- One per-cycle input of the `working_yolo.py` loop: either `cap.read()`
failed (`ret` false, end of stream), or a frame was read and the YOLO call
either returned a count or raised (the `except` branch). -/
inductive CycleInput
  | readFail
  | frame (detect : Option ℕ)
deriving DecidableEq, Repr

/-- Snapshot published by `working_yolo.py` each cycle (timestamp omitted). -/
structure Snapshot where
  vehicle_count : ℕ
  avg_vehicle_count : ℚ
  congestion_level : Congestion
  traffic_signal : Light
  signal_timer : ℚ
  frame_count : ℕ
deriving DecidableEq, Repr

/-- Mutable state of the `working_yolo.py` processing loop. -/
structure WorkingState where
  history : List ℕ
  sig : SignalState
  frameCount : ℕ
deriving DecidableEq, Repr

/-- One cycle of `working_yolo.process_video`.  On a failed read the loop
rewinds and `continue`s: nothing is recorded or published (and `last_time` is
not updated, so the elapsed time is folded into the next successful cycle's
delta).  On a successful read, a YOLO exception is caught and the count is set
to 0; the cycle then proceeds normally: the count is appended to the window,
the congestion level is computed from the instantaneous count, the signal
timer advances by the real delta, and a fresh snapshot is published. -/
def workingCycle (st : WorkingState) (input : CycleInput) (dt : ℚ) :
    WorkingState × Option Snapshot :=
  match input with
  | .readFail => (st, none)
  | .frame detect =>
    let count := match detect with
      | some n => n
      | none => 0
    let fc := st.frameCount + 1
    let hist := updateHistory st.history count
    let cong := calculate_congestion_level count
    let sig := workingTick st.sig dt cong
    let snap : Snapshot :=
      ⟨count, histAvg hist, cong, sig.signal, sig.timer, fc⟩
    (⟨hist, sig, fc⟩, some snap)

/-- Last `n` elements of a list, in order. -/
def lastN (n : ℕ) (l : List ℕ) : List ℕ := l.drop (l.length - n)

/-- History window obtained by feeding every count of the list, in order, to
the estimator's window update, starting from the empty window. -/
def feedAll (counts : List ℕ) : List ℕ := counts.foldl updateHistory []

/-- Invariant of a run of `cycleTimeAux` under constant high congestion from a
fresh green state: the accumulated total always exceeds the time necessarily
spent in the phases already completed plus the time shown on the current
timer. -/
def cycleInv : SignalState → ℚ → Prop
  | ⟨.green, t⟩, total => total = t
  | ⟨.yellow, t⟩, total => 15 + t < total
  | ⟨.red, t⟩, total => 18 + t < total

/-! ### Helper lemmas -/

theorem tail_append_singleton (h : List ℕ) (c : ℕ) (hh : h ≠ []) :
    (h ++ [c]).tail = h.tail ++ [c] := by
  cases h with
  | nil => exact absurd rfl hh
  | cons a t => rfl

theorem updateHistory_length (h : List ℕ) (c : ℕ) :
    (updateHistory h c).length = if 30 < h.length + 1 then h.length else h.length + 1 := by
  unfold updateHistory
  by_cases hlen : 30 < (h ++ [c]).length
  · rw [if_pos hlen, if_pos (by simpa using hlen)]
    simp [List.length_tail]
  · rw [if_neg hlen, if_neg (by simpa using hlen)]
    simp

theorem updateHistory_ne_nil (h : List ℕ) (c : ℕ) : updateHistory h c ≠ [] := by
  have hl := updateHistory_length h c
  intro hcon
  rw [hcon] at hl
  simp at hl
  split at hl <;> omega

theorem updateHistory_of_lt (h : List ℕ) (c : ℕ) (hl : h.length < 30) :
    updateHistory h c = h ++ [c] := by
  unfold updateHistory
  rw [if_neg]
  simp
  omega

theorem updateHistory_of_full (h : List ℕ) (c : ℕ) (hl : h.length = 30) :
    updateHistory h c = h.tail ++ [c] := by
  have hh : h ≠ [] := by
    intro hcon; rw [hcon] at hl; simp at hl
  unfold updateHistory
  rw [if_pos (by simp [hl])]
  exact tail_append_singleton h c hh

theorem updateHistory_lastN (l : List ℕ) (x : ℕ) :
    updateHistory (lastN 30 l) x = lastN 30 (l ++ [x]) := by
  by_cases hlen : l.length < 30
  · have h1 : lastN 30 l = l := by
      unfold lastN
      rw [Nat.sub_eq_zero_of_le (by omega), List.drop_zero]
    have h2 : lastN 30 (l ++ [x]) = l ++ [x] := by
      unfold lastN
      rw [Nat.sub_eq_zero_of_le (by simp; omega), List.drop_zero]
    rw [h1, h2, updateHistory_of_lt l x hlen]
  · push_neg at hlen
    have hdroplen : (lastN 30 l).length = 30 := by
      unfold lastN
      rw [List.length_drop]
      omega
    rw [updateHistory_of_full _ x hdroplen]
    unfold lastN
    rw [List.tail_drop]
    have hle : l.length - 30 + 1 ≤ l.length := by omega
    have harith : (l ++ [x]).length - 30 = l.length - 30 + 1 := by
      simp
      omega
    rw [harith, List.drop_append_of_le_length hle]

theorem feedAll_eq_lastN (counts : List ℕ) : feedAll counts = lastN 30 counts := by
  induction counts using List.reverseRecOn with
  | nil => rfl
  | append_singleton l x ih =>
    have step : feedAll (l ++ [x]) = updateHistory (feedAll l) x := by
      unfold feedAll
      exact List.foldl_concat updateHistory [] x l
    rw [step, ih]
    exact updateHistory_lastN l x

theorem classifyAvg_spec (a : ℚ) :
    (classifyAvg a = .low ↔ a < 5) ∧
    (classifyAvg a = .medium ↔ 5 ≤ a ∧ a < 15) ∧
    (classifyAvg a = .high ↔ 15 ≤ a) := by
  unfold classifyAvg
  by_cases h5 : a < 5
  · rw [if_pos h5]
    refine ⟨by simp [h5], ?_, ?_⟩
    · constructor
      · intro h; exact absurd h (by simp)
      · intro ⟨h1, _⟩; linarith
    · constructor
      · intro h; exact absurd h (by simp)
      · intro h; linarith
  · rw [if_neg h5]
    push_neg at h5
    by_cases h15 : a < 15
    · rw [if_pos h15]
      refine ⟨?_, by simp [h5, h15], ?_⟩
      · constructor
        · intro h; exact absurd h (by simp)
        · intro h; linarith
      · constructor
        · intro h; exact absurd h (by simp)
        · intro h; linarith
    · rw [if_neg h15]
      push_neg at h15
      refine ⟨?_, ?_, by simp [h15]⟩
      · constructor
        · intro h; exact absurd h (by simp)
        · intro h; linarith
      · constructor
        · intro h; exact absurd h (by simp)
        · intro ⟨_, h2⟩; linarith

theorem calc_congestion_cast (n : ℕ) :
    calculate_congestion_level n = classifyAvg (n : ℚ) := by
  unfold calculate_congestion_level classifyAvg
  by_cases h5 : n < 5
  · rw [if_pos h5, if_pos (by exact_mod_cast h5)]
  · rw [if_neg h5, if_neg (show ¬ ((n : ℚ) < 5) by exact_mod_cast h5)]
    by_cases h15 : n < 15
    · rw [if_pos h15, if_pos (by exact_mod_cast h15)]
    · rw [if_neg h15, if_neg (show ¬ ((n : ℚ) < 15) by exact_mod_cast h15)]

/-! ### Claim theorems -/

/-- C1 counterexample: in `TrafficDetector.process_video` (and likewise in
`working_yolo.py` / `simple_yolo.py`) the congestion level returned for a
cycle is `calculate_congestion_level(vehicle_count)` on the instantaneous
count.  With a window holding twenty-nine readings of 20 vehicles, feeding
the count 0 yields level `low`, although the averaged count of the updated
window (580/30 ≈ 19.3) classifies as `high`. -/
theorem congestion_uses_instantaneous_count :
    (detectorEstimatorUpdate (List.replicate 29 20) 0).2 = .low ∧
    classifyAvg (histAvg (updateHistory (List.replicate 29 20) 0)) = .high := by
  constructor
  · decide
  · have hup : updateHistory (List.replicate 29 20) 0 =
        List.replicate 29 20 ++ [0] :=
      updateHistory_of_lt _ 0 (by simp)
    rw [hup]
    have hsum : ((List.replicate 29 (20 : ℕ)) ++ [0]).sum = 580 := by decide
    have hlen : ((List.replicate 29 (20 : ℕ)) ++ [0]).length = 30 := by decide
    have hne : (List.replicate 29 (20 : ℕ)) ++ [0] ≠ [] := by decide
    unfold histAvg classifyAvg
    rw [if_neg hne, hsum, hlen]
    norm_num

/-- C1 amended: in `YoloWebStreamer.update_traffic_signal` (and the identical
`YoloVideoDisplay` code) the congestion level is the classification of the
averaged count of the updated window, with exact thresholds `avg < 5 → low`,
`5 ≤ avg < 15 → medium`, `15 ≤ avg → high`; the
`yolo_traffic_detector.py` / `working_yolo.py` / `simple_yolo.py` variants
apply the same thresholds to the instantaneous per-frame count instead. -/
theorem congestion_classification (h : List ℕ) (c : ℕ) :
    (webEstimatorUpdate h c).2 = classifyAvg (histAvg (updateHistory h c)) ∧
    (detectorEstimatorUpdate h c).2 = calculate_congestion_level c ∧
    (∀ a : ℚ, (classifyAvg a = .low ↔ a < 5) ∧
              (classifyAvg a = .medium ↔ 5 ≤ a ∧ a < 15) ∧
              (classifyAvg a = .high ↔ 15 ≤ a)) ∧
    (∀ n : ℕ, calculate_congestion_level n = classifyAvg (n : ℚ)) :=
  ⟨rfl, rfl, classifyAvg_spec, calc_congestion_cast⟩

/-- C2 counterexample: `simple_yolo.py` publishes
`avg_vehicle_count = vehicle_count * 0.9`.  After the single count 10, the
arithmetic mean of the last `min(1, 30)` submitted values is 10, but the
published value is 9. -/
theorem simple_average_not_mean :
    simpleAvg 10 = 9 ∧
    ((lastN 30 [10]).sum : ℚ) / ((lastN 30 [10]).length : ℚ) = 10 ∧
    simpleAvg 10 ≠ ((lastN 30 [10]).sum : ℚ) / ((lastN 30 [10]).length : ℚ) := by
  refine ⟨by norm_num [simpleAvg], ?_, ?_⟩ <;> norm_num [simpleAvg, lastN]

/-- C2 amended: in the variants that maintain the history window
(`yolo_web_streamer.py`, `yolo_traffic_detector.py`, `working_yolo.py`,
`yolo_video_display.py`) the published `avg_vehicle_count` after feeding any
sequence of counts equals the arithmetic mean of the last `min(n, 30)` values
in submission order; `simple_yolo.py` instead publishes 0.9 times the
instantaneous count. -/
theorem published_average_is_mean (counts : List ℕ) :
    feedAll counts = lastN 30 counts ∧
    histAvg (feedAll counts) =
      ((lastN 30 counts).sum : ℚ) / ((lastN 30 counts).length : ℚ) := by
  refine ⟨feedAll_eq_lastN counts, ?_⟩
  rw [feedAll_eq_lastN]
  by_cases hnil : lastN 30 counts = []
  · rw [hnil]
    simp [histAvg]
  · unfold histAvg
    rw [if_neg hnil]

/-- C10: inside the estimator update the window average is computed only after
the new count has been appended: the updated window is never empty, so the
division `sum(window)/len(window)` is what the update actually evaluates (the
guarded branch never fires inside the update), and the guarded value 0 arises
exactly for the empty pre-first-observation window. -/
theorem average_guard_only_initial (h : List ℕ) (c : ℕ) :
    updateHistory h c ≠ [] ∧
    webEstimatorUpdate h c =
      (updateHistory h c,
       classifyAvg (((updateHistory h c).sum : ℚ) / ((updateHistory h c).length : ℚ))) ∧
    histAvg [] = 0 := by
  refine ⟨updateHistory_ne_nil h c, ?_, rfl⟩
  show (updateHistory h c,
        classifyAvg (if updateHistory h c = [] then 0
                     else ((updateHistory h c).sum : ℚ) / ((updateHistory h c).length : ℚ))) = _
  rw [if_neg (updateHistory_ne_nil h c)]

/-- C3 counterexample: under constant high congestion the boundary partition
15 + 3 + 35 does not complete the cycle (the strict comparisons leave the
controller in red after 53 accumulated seconds), while the partition
16 + 4 + 36 completes it at 56 seconds — not 53. -/
theorem full_cycle_not_53 :
    cycleTime .high [15, 3, 35] = none ∧
    cycleTime .high [16, 4, 36] = some 56 ∧ (56 : ℚ) ≠ 53 := by
  refine ⟨?_, ?_, by norm_num⟩ <;>
    · norm_num [cycleTime, cycleTimeAux, tick, greenDuration, yellowDuration,
        redDuration]
      decide

theorem cycleTimeAux_gt_53 (dts : List ℚ) :
    ∀ (s : SignalState) (total T : ℚ), cycleInv s total →
      cycleTimeAux .high s total dts = some T → 53 < T := by
  induction dts with
  | nil =>
    intro s total T _ hrun
    simp [cycleTimeAux] at hrun
  | cons dt rest ih =>
    intro s total T hinv hrun
    rcases s with ⟨sig, t⟩
    cases sig with
    | green =>
      have hinv' : total = t := hinv
      by_cases hc : t + dt > greenDuration .high
      · simp only [cycleTimeAux, tick, if_pos hc] at hrun
        simp at hrun
        refine ih ⟨.yellow, 0⟩ (total + dt) T ?_ hrun
        show 15 + 0 < total + dt
        have : (15 : ℚ) < t + dt := by
          simpa [greenDuration] using hc
        rw [hinv']
        linarith
      · simp only [cycleTimeAux, tick, if_neg hc] at hrun
        simp at hrun
        refine ih ⟨.green, t + dt⟩ (total + dt) T ?_ hrun
        show total + dt = t + dt
        rw [hinv']
    | yellow =>
      have hinv' : 15 + t < total := hinv
      by_cases hc : t + dt > yellowDuration
      · simp only [cycleTimeAux, tick, if_pos hc] at hrun
        simp at hrun
        refine ih ⟨.red, 0⟩ (total + dt) T ?_ hrun
        show 18 + 0 < total + dt
        have : (3 : ℚ) < t + dt := by
          simpa [yellowDuration] using hc
        linarith
      · simp only [cycleTimeAux, tick, if_neg hc] at hrun
        simp at hrun
        refine ih ⟨.yellow, t + dt⟩ (total + dt) T ?_ hrun
        show 15 + (t + dt) < total + dt
        linarith
    | red =>
      have hinv' : 18 + t < total := hinv
      by_cases hc : t + dt > redDuration .high
      · simp only [cycleTimeAux, tick, if_pos hc] at hrun
        simp at hrun
        have h35 : (35 : ℚ) < t + dt := by
          simpa [redDuration] using hc
        rw [← hrun]
        linarith
      · simp only [cycleTimeAux, tick, if_neg hc] at hrun
        simp at hrun
        refine ih ⟨.red, t + dt⟩ (total + dt) T ?_ hrun
        show 18 + (t + dt) < total + dt
        linarith

/-- C3 amended: under constant high congestion, a full cycle
green→yellow→red→green never closes at exactly 53 accumulated simulated
seconds: whatever the partition of time across `tick` calls, the strict
dwell comparisons and the timer reset that discards overshoot force the
accumulated total at the completing red→green transition to be strictly
greater than 53 (the dwell sum 15 + 3 + 35 is an unattained lower bound). -/
theorem full_cycle_exceeds_53 (dts : List ℚ) (T : ℚ)
    (hrun : cycleTime .high dts = some T) : 53 < T :=
  cycleTimeAux_gt_53 dts ⟨.green, 0⟩ 0 T rfl hrun

/-- Witness for `full_cycle_exceeds_53` at the concrete partition
16 + 4 + 36, which completes the cycle at 56 seconds. -/
theorem full_cycle_exceeds_53_witness : (53 : ℚ) < 56 :=
  full_cycle_exceeds_53 [16, 4, 36] 56 (by
    norm_num [cycleTime, cycleTimeAux, tick, greenDuration, yellowDuration,
      redDuration]
    decide)

/-- C4 counterexample: at elapsed time exactly equal to the dwell time
(green under high congestion, dwell 15), the `yolo_video_display.py`
controller does change state — its comparisons are non-strict — while the
`yolo_web_streamer.py` controller stays put. -/
theorem equality_transition_in_display :
    displayTick ⟨.green, 0⟩ 15 .high = ⟨.yellow, 0⟩ ∧
    tick ⟨.green, 0⟩ 15 .high = ⟨.green, 15⟩ := by
  constructor <;> norm_num [displayTick, tick, greenDuration]

/-- C4 amended: the `yolo_web_streamer.py` controller transitions exactly when
the accumulated elapsed time strictly exceeds the applicable dwell time, but
the `yolo_video_display.py` variant transitions exactly when the elapsed time
is greater than or equal to it, so at elapsed time equal to the dwell time
the former holds its state and the latter advances. -/
theorem transition_strictness (s : SignalState) (dt : ℚ) (cong : Congestion) :
    ((tick s dt cong).signal ≠ s.signal ↔ dwell s.signal cong < s.timer + dt) ∧
    ((displayTick s dt cong).signal ≠ s.signal ↔ dwell s.signal cong ≤ s.timer + dt) := by
  rcases s with ⟨sig, t⟩
  cases sig <;>
    constructor <;>
      simp only [tick, displayTick, dwell] <;>
        split <;> simp_all

/-- C7: a single `tick` call, whatever the delta time, either leaves the light
unchanged or advances it exactly one step along green→yellow→red→green, and
whenever it advances the elapsed timer restarts at zero. -/
theorem tick_single_step (s : SignalState) (dt : ℚ) (cong : Congestion) :
    (tick s dt cong).signal = s.signal ∨
      ((tick s dt cong).signal = nextLight s.signal ∧ (tick s dt cong).timer = 0) := by
  rcases s with ⟨sig, t⟩
  cases sig <;> simp only [tick, nextLight] <;> split <;> simp

/-- C8: the history window update keeps at most 30 entries; at capacity the
single oldest entry is evicted and the newer entries are kept in order,
below capacity the count is simply appended. -/
theorem window_capacity (h : List ℕ) (c : ℕ) :
    (h.length ≤ 30 → (updateHistory h c).length ≤ 30) ∧
    (h.length = 30 → updateHistory h c = h.tail ++ [c]) ∧
    (h.length < 30 → updateHistory h c = h ++ [c]) := by
  refine ⟨?_, fun he => updateHistory_of_full h c he, fun hl => updateHistory_of_lt h c hl⟩
  intro hle
  rw [updateHistory_length h c]
  split <;> omega

/-- Witness for `window_capacity` at a full window of thirty fives receiving
a nine. -/
theorem window_capacity_witness :
    (updateHistory (List.replicate 30 5) 9).length ≤ 30 ∧
    updateHistory (List.replicate 30 5) 9 = (List.replicate 30 5).tail ++ [9] :=
  ⟨(window_capacity (List.replicate 30 5) 9).1 (by decide),
   (window_capacity (List.replicate 30 5) 9).2.1 (by decide)⟩

theorem webBroadcastLoop_spec (l : List Client) :
    webBroadcastLoop l =
      (l.filter (fun c => c.outcome == .ok),
       l.filter (fun c => !(c.outcome == .ok))) := by
  induction l with
  | nil => rfl
  | cons c rest ih =>
    cases hc : c.outcome <;>
      simp [webBroadcastLoop, ih, List.filter_cons, hc]

theorem remove_disconnected (l : List Client) :
    l.filter (fun c => !((l.filter (fun d => !(d.outcome == .ok))).contains c)) =
      l.filter (fun c => c.outcome == .ok) := by
  apply List.filter_congr
  intro c hc
  by_cases hok : c.outcome = .ok
  · have hnm : c ∉ l.filter (fun d => !(d.outcome == .ok)) := by
      intro hmem
      rw [List.mem_filter] at hmem
      simp [hok] at hmem
    simp [hok, List.elem_iff, hnm]
  · have hm : c ∈ l.filter (fun d => !(d.outcome == .ok)) := by
      rw [List.mem_filter]
      exact ⟨hc, by simp [hok]⟩
    simp [hok, List.elem_iff, hm]

theorem detectorBroadcastLoop_spec (l : List Client)
    (hne : ∀ c ∈ l, c.outcome ≠ .err) :
    detectorBroadcastLoop l =
      .ok (l.filter (fun c => c.outcome == .ok),
           l.filter (fun c => !(c.outcome == .ok))) := by
  induction l with
  | nil => rfl
  | cons c rest ih =>
    have hrest : ∀ d ∈ rest, d.outcome ≠ .err := fun d hd => hne d (by simp [hd])
    cases hoc : c.outcome with
    | ok => simp [detectorBroadcastLoop, ih hrest, List.filter_cons, hoc]
    | closed => simp [detectorBroadcastLoop, ih hrest, List.filter_cons, hoc]
    | err => exact absurd hoc (hne c (by simp))

/-- C5 counterexample: in `TrafficDetector.broadcast_data` only
`ConnectionClosed` is caught, so a subscriber whose send raises any other
exception makes the exception escape the hub (`.error`), no subscriber is
removed, and the second currently-registered subscriber never receives the
snapshot (empty delivery list). -/
theorem broadcast_error_escapes :
    detectorBroadcast [⟨0, .err⟩, ⟨1, .ok⟩] = .error (⟨0, .err⟩, []) ∧
    webBroadcast [⟨0, .err⟩, ⟨1, .ok⟩] = ([⟨1, .ok⟩], [⟨1, .ok⟩]) := by
  constructor <;> rfl

/-- C5 amended: the `yolo_web_streamer.py` hub swallows every send failure,
removes exactly the failing subscribers and delivers to every other
subscriber; the `yolo_traffic_detector.py` hub gives the same guarantee only
when each failure is a closed connection — any other send failure propagates
out of it. -/
theorem broadcast_isolation (clients : List Client) :
    webBroadcast clients =
      (clients.filter (fun c => c.outcome == .ok),
       clients.filter (fun c => c.outcome == .ok)) ∧
    ((∀ c ∈ clients, c.outcome ≠ .err) →
      detectorBroadcast clients =
        .ok (clients.filter (fun c => c.outcome == .ok),
             clients.filter (fun c => c.outcome == .ok))) := by
  constructor
  · simp only [webBroadcast, webBroadcastLoop_spec]
    rw [remove_disconnected]
  · intro hne
    simp only [detectorBroadcast, detectorBroadcastLoop_spec clients hne]
    rw [remove_disconnected]

/-- Witness for `broadcast_isolation`: one closed and one healthy subscriber;
the detector hub also swallows the closed connection, removes it, and the
healthy subscriber receives the snapshot. -/
theorem broadcast_isolation_witness :
    detectorBroadcast [⟨0, .closed⟩, ⟨1, .ok⟩] = .ok ([⟨1, .ok⟩], [⟨1, .ok⟩]) := by
  have h := (broadcast_isolation [⟨0, .closed⟩, ⟨1, .ok⟩]).2 (by decide)
  rw [h]
  rfl

theorem workingFrameNumbers_mono (l : List Bool) :
    ∀ n, List.Chain' (· < ·) (workingFrameNumbers n l) ∧
      ∀ m ∈ workingFrameNumbers n l, n < m := by
  induction l with
  | nil =>
    intro n
    refine ⟨by simp [workingFrameNumbers], ?_⟩
    intro m hm
    simp [workingFrameNumbers] at hm
  | cons b rest ih =>
    intro n
    cases b with
    | false => simpa [workingFrameNumbers] using ih n
    | true =>
      obtain ⟨hc, hm⟩ := ih (n + 1)
      constructor
      · simp only [workingFrameNumbers, if_pos]
        refine List.chain'_cons'.mpr ⟨?_, hc⟩
        intro y hy
        exact hm y (List.mem_of_mem_head? hy)
      · intro m hmem
        simp only [workingFrameNumbers, if_pos, List.mem_cons] at hmem
        rcases hmem with h1 | h2
        · omega
        · have := hm m h2
          omega

theorem webFrameNumbers_all_ok (l : List Bool) :
    ∀ n, (∀ b ∈ l, b = true) → webFrameNumbers n l = List.range' (n + 1) l.length := by
  induction l with
  | nil => intro n _; rfl
  | cons b rest ih =>
    intro n hall
    have hb : b = true := hall b (by simp)
    subst hb
    simp only [webFrameNumbers, if_pos, List.length_cons]
    rw [List.range'_succ]
    exact congrArg _ (ih (n + 1) (fun x hx => hall x (by simp [hx])))

/-- C6 counterexample: in `YoloWebStreamer.generate_frames` the frame counter
is reset to 0 whenever `cap.read()` fails and the video is looped, so the
published `frame_number` values for the read pattern ok, ok, end-of-stream,
ok are 1, 2, 1 — not strictly increasing across the restart; and the data
dict broadcast by `TrafficDetector.process_video` carries no sequence-number
key at all. -/
theorem sequence_resets_on_loop :
    webPublishedSeq [true, true, false, true] = [1, 2, 1] ∧
    ¬ List.Chain' (· < ·) (webPublishedSeq [true, true, false, true]) ∧
    "frame_number" ∉ detectorDataKeys ∧ "frame_count" ∉ detectorDataKeys := by
  refine ⟨rfl, ?_, by decide, by decide⟩
  intro hch
  rw [show webPublishedSeq [true, true, false, true] = [1, 2, 1] from rfl] at hch
  rw [List.chain'_cons, List.chain'_cons] at hch
  obtain ⟨-, h21, -⟩ := hch
  omega

/-- C6 amended: the `working_yolo.py` snapshots carry `frame_count`, which is
strictly monotonically increasing across the whole run including end-of-stream
restarts; the web streamer snapshots carry `frame_number`, which is strictly
increasing only within one playback (it restarts at 1 after the source loops);
the `yolo_traffic_detector.py` snapshot has no sequence-number field. -/
theorem sequence_numbers_by_variant (frames : List Bool) :
    List.Chain' (· < ·) (workingPublishedSeq frames) ∧
    "frame_count" ∈ workingDataKeys ∧
    "frame_number" ∈ webDataKeys ∧
    ((∀ b ∈ frames, b = true) →
      webPublishedSeq frames = List.range' 1 frames.length) := by
  refine ⟨(workingFrameNumbers_mono frames 0).1, by decide, by decide, ?_⟩
  intro hall
  exact webFrameNumbers_all_ok frames 0 hall

/-- Witness for `sequence_numbers_by_variant` on three successful reads:
the web streamer publishes 1, 2, 3. -/
theorem sequence_numbers_by_variant_witness :
    webPublishedSeq [true, true, true] = List.range' 1 3 :=
  (sequence_numbers_by_variant [true, true, true]).2.2.2 (by decide)

/-- C9 counterexample: in `working_yolo.py` a YOLO failure on one cycle is not
a skip: the caught exception sets the count to 0 and the cycle proceeds —
starting from a window holding one reading of 7, the failing cycle appends a
0 (the window becomes 7, 0) and publishes a fresh snapshot with count 0 and
average 7/2, instead of leaving the window untouched and the previous
snapshot in place. -/
theorem detector_failure_records_zero :
    (workingCycle ⟨[7], ⟨.green, 1⟩, 1⟩ (.frame none) 1).1.history = [7, 0] ∧
    (workingCycle ⟨[7], ⟨.green, 1⟩, 1⟩ (.frame none) 1).2 =
      some ⟨0, 7 / 2, .low, .green, 2, 2⟩ := by
  constructor
  · rfl
  · norm_num [workingCycle, updateHistory, histAvg, calculate_congestion_level,
      workingTick, greenDuration]
    decide

/-- C9 amended: a detector failure does not skip the cycle — it is handled by
substituting the count 0, after which the cycle runs exactly as a successful
cycle that detected zero vehicles: the 0 is appended to the window, a fresh
snapshot is published, and the controller's elapsed time advances by the real
delta; only a frame-read failure skips the cycle (recording and publishing
nothing). -/
theorem detector_failure_is_zero_count (st : WorkingState) (dt : ℚ) :
    workingCycle st (.frame none) dt = workingCycle st (.frame (some 0)) dt ∧
    (workingCycle st (.frame none) dt).1.history = updateHistory st.history 0 ∧
    (workingCycle st (.frame none) dt).1.sig =
      workingTick st.sig dt (calculate_congestion_level 0) ∧
    workingCycle st .readFail dt = (st, none) :=
  ⟨rfl, rfl, rfl, rfl⟩

end Traffic



